import Mathlib

/-!
Verification development for the IPNS record engine of the
ipfs-json-editor repository (src/services/ipnsUpdater.ts and
src/services/ipfsUploader.ts).

The TypeScript sources are shallowly embedded as pure Lean functions.
External effects (HTTP fetches against gateways, the Helia routing
backend, the QuickNode pinning API, key decoding and CID parsing done
by imported libraries) are modelled by explicit environment records
that carry the outcome such a call would produce; the embedded control
flow over those outcomes follows the source line by line.  Each
operation additionally returns a trace of the externally visible
actions it performed (which gateway URLs were probed, whether the
sign / publish / session-stop steps were invoked), so that claims of
the form "step X is never invoked" become statements about the trace.
-/

deriving instance DecidableEq for Except

/-- JavaScript truthiness of an optional string: `undefined`, `null`
and the empty string are falsy, every other string is truthy. -/
def strTruthy : Option String → Bool
  | none => false
  | some s => s ≠ ""

/-- Drop whitespace from both ends of a character list. -/
def trimChars (cs : List Char) : List Char :=
  (((cs.dropWhile Char.isWhitespace).reverse).dropWhile Char.isWhitespace).reverse

/-- The `.trim()` applied to the `X-Ipfs-Roots` header value: strips
leading and trailing whitespace. -/
def jsTrim (s : String) : String :=
  String.mk (trimChars s.toList)

/-! ## Identity and key module

`privateKeyFromProtobuf` (library code) yields a key object with a
`type` tag; the source accepts only `Ed25519`.  The identity string is
`peerIdFromPrivateKey(k).toCID().toString(base36)`: for Ed25519 keys
the peer id multihash is the identity multihash of the protobuf
encoding of the public key, the CID is CIDv1 with the libp2p-key
codec (0x72, byte 114), and base36 is the multibase `k...` string. -/

/-- Algorithm tag carried by a decoded libp2p key. -/
inductive KeyType where
  | RSA
  | Ed25519
  | Secp256k1
  | ECDSA
deriving DecidableEq, Repr

/-- A decoded libp2p private key: algorithm tag, public key bytes and
raw private key bytes (bytes as naturals below 256). -/
structure PrivateKey where
  type : KeyType
  publicKeyBytes : List Nat
  privateKeyBytes : List Nat
deriving DecidableEq, Repr

/-- Outcome of `privateKeyFromProtobuf` applied to the base64 decoding of the key string:
either the library throws (malformed base64 or envelope) or it yields a
decoded key. -/
inductive DecodeResult where
  | fail (msg : String)
  | key (k : PrivateKey)
deriving DecidableEq, Repr

/-- Protobuf wire tag for each libp2p key type. -/
def keyTypeTag : KeyType → Nat
  | .RSA => 0
  | .Ed25519 => 1
  | .Secp256k1 => 2
  | .ECDSA => 3

/-- Protobuf encoding of a libp2p public key envelope: field 1 (varint)
is the type tag, field 2 (length-delimited) the key bytes.  Key data is
at most 127 bytes for the supported key type, so lengths are single
byte varints. -/
def publicKeyProtobuf (t : KeyType) (pub : List Nat) : List Nat :=
  [8, keyTypeTag t, 18, pub.length % 256] ++ pub

/-- Digit character for a value below 36 in the multibase base36
alphabet: 0-9 then the lowercase letters (0 maps to code point 48,
10 to code point 97). -/
def base36DigitChar (n : Nat) : Char :=
  if n < 10 then Char.ofNat (48 + n)
  else if n < 36 then Char.ofNat (97 + (n - 10))
  else Char.ofNat 48

/-- Fuelled base conversion producing base36 digits, most significant
first.  Fuel `n + 1` always suffices because the argument shrinks by a
factor of 36 each step. -/
def natToBase36Core : Nat → Nat → List Char → List Char
  | 0, _, acc => acc
  | fuel + 1, n, acc =>
    if n = 0 then acc
    else natToBase36Core fuel (n / 36) (base36DigitChar (n % 36) :: acc)

/-- Base36 rendering of a natural number. -/
def natToBase36 (n : Nat) : String :=
  if n = 0 then "0" else String.mk (natToBase36Core (n + 1) n [])

/-- Big-endian byte list read as a natural number. -/
def bytesToNat (bs : List Nat) : Nat :=
  bs.foldl (fun a b => a * 256 + b % 256) 0

/-- Number of leading zero bytes, preserved verbatim by multibase. -/
def countLeadingZeros : List Nat → Nat
  | [] => 0
  | b :: rest => if b % 256 = 0 then countLeadingZeros rest + 1 else 0

/-- Multibase base36 string of a byte list: prefix `k`, one `0` per
leading zero byte, then the base36 digits of the value. -/
def base36Multibase (bs : List Nat) : String :=
  let v := bytesToNat bs
  "k" ++ String.mk (List.replicate (countLeadingZeros bs) '0')
    ++ (if v = 0 then "" else natToBase36 v)

/-- `getIPNSNameFromKeypair` (ipnsUpdater.ts lines 59-62):
`peerIdFromPrivateKey(privateKey).toCID().toString(base36)` for a
present key, the empty string for an absent one.  The peer id
multihash is modelled for keys whose protobuf envelope fits the
identity hash (true of Ed25519, the only type the callers let
through): code 0x00, length, then the protobuf bytes; the CID prefixes
version 1 and the libp2p-key codec 0x72. -/
def getIPNSNameFromKeypair : Option PrivateKey → String
  | none => ""
  | some k =>
    let pb := publicKeyProtobuf k.type k.publicKeyBytes
    base36Multibase ([1, 114] ++ [0, pb.length % 256] ++ pb)

/-! ## Resolution state machine

Both resolve entry points build the same two-element list of gateway
probes and run them in order (ipnsUpdater.ts lines 75-105 / 155-185 and
the shared loop at lines 108-120 / 188-200). -/

/-- Result record returned by the resolve entry points
(`IPNSResolveResult` in the source). -/
structure IPNSResolveResult where
  success : Bool
  ipfsHash : Option String
  ipnsName : Option String
  error : Option String
deriving DecidableEq, Repr

/-- What a `fetch` of a gateway URL did: threw, or returned a response
with a status, an ok flag, and an optional `X-Ipfs-Roots` header. -/
structure FetchResponse where
  ok : Bool
  status : Nat
  xIpfsRoots : Option String
deriving DecidableEq, Repr

/-- Outcome of one gateway HEAD request. -/
inductive FetchOutcome where
  | fetchFail (msg : String)
  | resp (r : FetchResponse)
deriving DecidableEq, Repr

/-- Network environment of one resolve call: the outcome each of the
two gateways would produce.  The probes do not depend on the queried
name, only the request URLs do. -/
structure GatewayEnv where
  ipfsIoGateway : FetchOutcome
  cloudflareGateway : FetchOutcome
deriving DecidableEq, Repr

/-- One gateway probe (ipnsUpdater.ts lines 77-89 and 92-104): on a
thrown fetch the error propagates; on a response, an ok status with a
truthy `X-Ipfs-Roots` header yields the trimmed header, anything else
throws `<label>: <status>`. -/
def gatewayProbe (label : String) (o : FetchOutcome) : Except String String :=
  match o with
  | .fetchFail m => .error m
  | .resp r =>
    if r.ok ∧ strTruthy r.xIpfsRoots then
      .ok (jsTrim (r.xIpfsRoots.getD ""))
    else
      .error (label ++ ": " ++ toString r.status)

/-- Method 1: the ipfs.io gateway probe. -/
def probeIpfsGateway (env : GatewayEnv) : Except String String :=
  gatewayProbe "Gateway header resolution failed" env.ipfsIoGateway

/-- Method 2: the Cloudflare gateway probe. -/
def probeCloudflareGateway (env : GatewayEnv) : Except String String :=
  gatewayProbe "Cloudflare gateway failed" env.cloudflareGateway

/-- URL requested by method 1 for a given name. -/
def ipfsGatewayURL (name : String) : String :=
  "https://ipfs.io/ipns/" ++ name

/-- URL requested by method 2 for a given name. -/
def cloudflareGatewayURL (name : String) : String :=
  "https://cloudflare-ipfs.com/ipns/" ++ name

/-- The `resolutionMethods` array: each strategy paired with the URL it
fetches, in source order (ipfs.io first, Cloudflare second). -/
def resolutionMethods (name : String) (env : GatewayEnv) :
    List (String × Except String String) :=
  [(ipfsGatewayURL name, probeIpfsGateway env),
   (cloudflareGatewayURL name, probeCloudflareGateway env)]

/-- The fallback loop (ipnsUpdater.ts lines 108-126): try each method
in order; the first success returns `success: true` with its hash; a
method failure is suppressed and the next method is tried; exhaustion
returns `success: false` with the aggregated error.  The second
component records the URLs of the methods actually invoked, in order. -/
def runMethodsTrace :
    List (String × Except String String) → String →
    IPNSResolveResult × List String
  | [], name =>
    ({ success := false, ipfsHash := none, ipnsName := some name,
       error := some "All resolution methods failed" }, [])
  | (url, Except.ok h) :: _, name =>
    ({ success := true, ipfsHash := some h, ipnsName := some name,
       error := none }, [url])
  | (url, Except.error _) :: rest, name =>
    let r := runMethodsTrace rest name
    (r.1, url :: r.2)

/-- `resolveIPNSFromPublicKey` (ipnsUpdater.ts lines 67-135) with its
invocation trace. -/
def resolveIPNSFromPublicKeyTrace (ipnsPublicKey : String)
    (env : GatewayEnv) : IPNSResolveResult × List String :=
  runMethodsTrace (resolutionMethods ipnsPublicKey env) ipnsPublicKey

/-- `resolveIPNSFromPublicKey`, result only. -/
def resolveIPNSFromPublicKey (ipnsPublicKey : String)
    (env : GatewayEnv) : IPNSResolveResult :=
  (resolveIPNSFromPublicKeyTrace ipnsPublicKey env).1

/-- `resolveIPNSFromPrivateKey` (ipnsUpdater.ts lines 140-215) with its
invocation trace.  The argument is the outcome of decoding the supplied
base64 key string.  A decode failure or a non-Ed25519 key type throws,
is caught by the outer handler, and becomes a bare failure result with
no name and no probes run; otherwise the derived name feeds the same
method chain as the public key entry point. -/
def resolveIPNSFromPrivateKeyTrace (decoded : DecodeResult)
    (env : GatewayEnv) : IPNSResolveResult × List String :=
  match decoded with
  | .fail m =>
    ({ success := false, ipfsHash := none, ipnsName := none,
       error := some m }, [])
  | .key k =>
    if k.type = KeyType.Ed25519 then
      let ipnsName := getIPNSNameFromKeypair (some k)
      runMethodsTrace (resolutionMethods ipnsName env) ipnsName
    else
      ({ success := false, ipfsHash := none, ipnsName := none,
         error := some "Only libp2p Ed25519 keys are supported" }, [])

/-- `resolveIPNSFromPrivateKey`, result only. -/
def resolveIPNSFromPrivateKey (decoded : DecodeResult)
    (env : GatewayEnv) : IPNSResolveResult :=
  (resolveIPNSFromPrivateKeyTrace decoded env).1

/-! ## Publish engine

`updateIPNSRecord` (ipnsUpdater.ts lines 220-286): create a transient
Helia HTTP instance, decode and type-check the key, parse the CID,
derive the IPNS name, take `BigInt(Date.now())` as the sequence
number, create and marshal the record, publish it through
`helia.routing.put`, and in a `finally` block always stop the Helia
instance when it was created (a stop error is caught and only
warned). -/

/-- Result record of a publish call (`IPNSUpdateResult` in the
source). -/
structure IPNSUpdateResult where
  success : Bool
  ipnsName : Option String
  error : Option String
deriving DecidableEq, Repr

/-- Externally visible actions of one publish call. -/
structure PublishTrace where
  heliaCreated : Bool
  identityDerived : Bool
  signInvoked : Bool
  putInvoked : Bool
  heliaStopped : Bool
  seqUsed : Option Nat
deriving DecidableEq, Repr

/-- Environment of one publish call: the outcome each external step
would produce, and the wall clock reading `Date.now()` in
milliseconds. -/
structure PublishEnv where
  heliaCreate : Except String Unit
  decodedKey : DecodeResult
  cidParse : Except String Unit
  now : Nat
  signOutcome : Except String Unit
  putOutcome : Except String Unit
  stopOutcome : Except String Unit
deriving Repr

/-- Failure result of a publish call: the catch block returns only the
success flag and the thrown message. -/
def failedUpdate (m : String) : IPNSUpdateResult :=
  { success := false, ipnsName := none, error := some m }

/-- Trace of a publish call that entered the try block after the Helia
instance was created: the finally block always stops it. -/
def publishBaseTrace : PublishTrace :=
  { heliaCreated := true, identityDerived := false, signInvoked := false,
    putInvoked := false, heliaStopped := true, seqUsed := none }

/-- Body of `updateIPNSRecord` after the Helia instance exists
(ipnsUpdater.ts lines 234-268): key decode, Ed25519 type check, CID
parse, name derivation, timestamp sequence number, record creation and
signing, routing put.  Every thrown error is caught and becomes a
failure result; the finally block stop is recorded in the trace. -/
def updateIPNSBody (env : PublishEnv) : IPNSUpdateResult × PublishTrace :=
  match env.decodedKey with
  | .fail m => (failedUpdate m, publishBaseTrace)
  | .key kp =>
    if kp.type = KeyType.Ed25519 then
      match env.cidParse with
      | .error m => (failedUpdate m, publishBaseTrace)
      | .ok _ =>
        let ipnsName := getIPNSNameFromKeypair (some kp)
        let sequenceNumber := env.now
        match env.signOutcome with
        | .error m =>
          (failedUpdate m,
           { publishBaseTrace with
               identityDerived := true, signInvoked := true,
               seqUsed := some sequenceNumber })
        | .ok _ =>
          match env.putOutcome with
          | .error m =>
            (failedUpdate m,
             { publishBaseTrace with
                 identityDerived := true, signInvoked := true,
                 putInvoked := true, seqUsed := some sequenceNumber })
          | .ok _ =>
            ({ success := true, ipnsName := some ipnsName, error := none },
             { publishBaseTrace with
                 identityDerived := true, signInvoked := true,
                 putInvoked := true, seqUsed := some sequenceNumber })
    else
      (failedUpdate "Only libp2p Ed25519 keys are supported",
       publishBaseTrace)

/-- `updateIPNSRecord` (ipnsUpdater.ts lines 220-286) with its trace.
If `createHeliaHTTP()` itself throws, the local `helia` variable was
never assigned, so the finally block does not stop anything. -/
def updateIPNSRecordTrace (_ipfsHash : String) (env : PublishEnv) :
    IPNSUpdateResult × PublishTrace :=
  match env.heliaCreate with
  | .error m =>
    (failedUpdate m,
     { heliaCreated := false, identityDerived := false,
       signInvoked := false, putInvoked := false,
       heliaStopped := false, seqUsed := none })
  | .ok _ => updateIPNSBody env

/-- `updateIPNSRecord`, result only. -/
def updateIPNSRecord (ipfsHash : String) (env : PublishEnv) :
    IPNSUpdateResult :=
  (updateIPNSRecordTrace ipfsHash env).1

/-! ## Upload orchestration

`getIPNSPrivateKeyFromConfig` (lines 292-294) and
`uploadAndUpdateIPNS` (lines 307-334). -/

/-- The per-environment configuration record; only the fields the
embedded functions consult are carried. -/
structure EnvironmentConfig where
  ipnsPublicKey : String
  ipnsPrivateKey : Option String
deriving DecidableEq, Repr

/-- `getIPNSPrivateKeyFromConfig`: `environmentConfig?.ipnsPrivateKey
|| null` — a missing or empty (falsy) key becomes `null`. -/
def getIPNSPrivateKeyFromConfig (environmentConfig : EnvironmentConfig) :
    Option String :=
  match environmentConfig.ipnsPrivateKey with
  | some s => if s = "" then none else some s
  | none => none

/-- `isIPNSConfiguredForEnvironmentConfig` (lines 299-302). -/
def isIPNSConfiguredForEnvironmentConfig
    (environmentConfig : EnvironmentConfig) : Bool :=
  (getIPNSPrivateKeyFromConfig environmentConfig).isSome

/-- Result record of an IPFS upload (`UploadResult` in
ipfsUploader.ts). -/
structure UploadResult where
  success : Bool
  ipfsHash : Option String
  error : Option String
deriving DecidableEq, Repr

/-- `uploadAndUpdateIPNS` (lines 307-334) with a flag recording whether
`updateIPNSRecord` was invoked.  The injected `uploadToIPFS` call is
modelled by its result `ipfsResult`; the publish call, when reached,
by its result `updateResult`. -/
def uploadAndUpdateIPNSTrace (ipfsResult : UploadResult)
    (environmentConfig : EnvironmentConfig)
    (updateResult : IPNSUpdateResult) :
    (UploadResult × Option IPNSUpdateResult) × Bool :=
  if ipfsResult.success ∧ strTruthy ipfsResult.ipfsHash then
    match getIPNSPrivateKeyFromConfig environmentConfig with
    | none => ((ipfsResult, none), false)
    | some _ => ((ipfsResult, some updateResult), true)
  else
    ((ipfsResult, none), false)

/-- `uploadAndUpdateIPNS`, result only: the pair of the upload result
and the optional publish result. -/
def uploadAndUpdateIPNS (ipfsResult : UploadResult)
    (environmentConfig : EnvironmentConfig)
    (updateResult : IPNSUpdateResult) :
    UploadResult × Option IPNSUpdateResult :=
  (uploadAndUpdateIPNSTrace ipfsResult environmentConfig updateResult).1

def exampleRespOk : FetchOutcome :=
  .resp { ok := true, status := 200, xIpfsRoots := some " bafyHash " }

def exampleRespBad : FetchOutcome :=
  .resp { ok := false, status := 500, xIpfsRoots := none }

def exampleRespOkB : FetchOutcome :=
  .resp { ok := true, status := 200, xIpfsRoots := some "bafyB" }

example :
    resolveIPNSFromPublicKey "k51abc"
      { ipfsIoGateway := exampleRespOk, cloudflareGateway := .fetchFail "x" }
    = { success := true, ipfsHash := some "bafyHash",
        ipnsName := some "k51abc", error := none } := by decide

example :
    resolveIPNSFromPublicKeyTrace "n"
      { ipfsIoGateway := exampleRespBad, cloudflareGateway := exampleRespOkB }
    = ({ success := true, ipfsHash := some "bafyB",
         ipnsName := some "n", error := none },
       ["https://ipfs.io/ipns/n", "https://cloudflare-ipfs.com/ipns/n"]) := by
  decide

/-! ## Pinning-service uploader

`uploadConfigToIPFS` (ipfsUploader.ts lines 29-109) and its helpers
`findPinnedObjectByName` (lines 149-168), `getAllPinnedObjects`
(lines 114-144) and `deletePinnedObject` (lines 173-202).  The three
HTTP interactions (listing pinned objects, deleting one, uploading the
new content) are modelled by their outcomes in an environment record;
the trace lists the mutating pinning-service calls actually issued, in
order. -/

/-- A pinned object as returned by the pinning service listing. -/
structure PinnedObject where
  name : String
  requestId : String
deriving DecidableEq, Repr

/-- Mutating pinning-service calls issued by an upload. -/
inductive UploadEvent where
  | deleteExisting
  | putObject
deriving DecidableEq, Repr

/-- Outcome of the upload POST: threw, or returned a response.  The
`extractedCid` field is the value of the
`IpfsHash || cid || hash || pin?.cid || pin?.hash || data?.IpfsHash
|| data?.cid` chain over the parsed JSON body, `none` when every
alternative is missing. -/
structure UploadHttpOutcome where
  ok : Bool
  status : Nat
  errorText : String
  extractedCid : Option String
  raw : String
deriving DecidableEq, Repr

/-- Environment of one `uploadConfigToIPFS` call. -/
structure UploaderEnv where
  allPinned : List PinnedObject × Option String
  deleteOutcome : Bool × Option String
  uploadHttp : Except String UploadHttpOutcome
deriving Repr

/-- `findPinnedObjectByName` (lines 149-168): forwards a truthy
listing error, otherwise scans the listed objects for an exact name
match.  Its argument pairs the listed objects with the optional error
of `getAllPinnedObjects`. -/
def findPinnedObjectByName (fileName : String)
    (allResult : List PinnedObject × Option String) :
    Option PinnedObject × Option String :=
  if strTruthy allResult.2 then
    (none, allResult.2)
  else
    (allResult.1.find? (fun obj => obj.name = fileName), none)

/-- Rendering of an optional string inside a template literal:
JavaScript prints `undefined` for a missing value. -/
def templateStr : Option String → String
  | none => "undefined"
  | some s => s

/-- The upload POST and response handling (lines 64-102): a thrown
fetch propagates; a non-ok response throws with status and body text;
a missing (falsy) extracted hash throws; otherwise the extracted hash
is returned as the successful result. -/
def performUploadPost (outcome : Except String UploadHttpOutcome) :
    UploadResult :=
  match outcome with
  | .error m => { success := false, ipfsHash := none, error := some m }
  | .ok resp =>
    if resp.ok then
      if strTruthy resp.extractedCid then
        { success := true, ipfsHash := resp.extractedCid, error := none }
      else
        { success := false, ipfsHash := none,
          error := some ("No IPFS hash returned from QuickNode upload. Response: "
            ++ resp.raw) }
    else
      { success := false, ipfsHash := none,
        error := some ("QuickNode upload failed: " ++ toString resp.status
          ++ " - " ++ resp.errorText) }

/-- `uploadConfigToIPFS` (lines 29-109) with its event trace.  The API
key must be truthy or `getQuickNodeApiKey` throws before any service
call.  A pre-existing pinned object named `env-<name>.json` is deleted
first; a failed deletion throws and the upload is never issued.  A
truthy lookup error is only warned about and the upload proceeds. -/
def uploadConfigToIPFS (environmentName : String)
    (quickNodeApiKey : Option String) (env : UploaderEnv) :
    UploadResult × List UploadEvent :=
  if strTruthy quickNodeApiKey then
    let fileName := "env-" ++ environmentName ++ ".json"
    match (findPinnedObjectByName fileName env.allPinned).1 with
    | some _ =>
      if env.deleteOutcome.1 then
        (performUploadPost env.uploadHttp,
         [UploadEvent.deleteExisting, UploadEvent.putObject])
      else
        ({ success := false, ipfsHash := none,
           error := some ("Failed to delete existing file: "
             ++ templateStr env.deleteOutcome.2) },
         [UploadEvent.deleteExisting])
    | none =>
      (performUploadPost env.uploadHttp, [UploadEvent.putObject])
  else
    ({ success := false, ipfsHash := none,
       error := some "QuickNode API key is required - either from config.__env.quickNodeApiKey" },
     [])

/-! ## Claim theorems -/

/-- C1: for both resolve entry points, the strategies are tried in the
fixed list order (the ipfs.io gateway first, then the Cloudflare
gateway); if the strategies before strategy k fail and strategy k
returns a content hash h, the result is success with ipfsHash h, and
no strategy after k is invoked (the invocation trace stops at
strategy k). -/
theorem claim_c1_fallback_order (name : String) (kp : PrivateKey)
    (env : GatewayEnv) (h e : String) :
    ((resolutionMethods name env).map Prod.fst
      = [ipfsGatewayURL name, cloudflareGatewayURL name])
    ∧ (probeIpfsGateway env = Except.ok h →
        resolveIPNSFromPublicKeyTrace name env
          = ({ success := true, ipfsHash := some h, ipnsName := some name,
               error := none }, [ipfsGatewayURL name]))
    ∧ (probeIpfsGateway env = Except.error e →
        probeCloudflareGateway env = Except.ok h →
        resolveIPNSFromPublicKeyTrace name env
          = ({ success := true, ipfsHash := some h, ipnsName := some name,
               error := none },
             [ipfsGatewayURL name, cloudflareGatewayURL name]))
    ∧ (kp.type = KeyType.Ed25519 →
        (probeIpfsGateway env = Except.ok h →
          resolveIPNSFromPrivateKeyTrace (DecodeResult.key kp) env
            = ({ success := true, ipfsHash := some h,
                 ipnsName := some (getIPNSNameFromKeypair (some kp)),
                 error := none },
               [ipfsGatewayURL (getIPNSNameFromKeypair (some kp))]))
        ∧ (probeIpfsGateway env = Except.error e →
            probeCloudflareGateway env = Except.ok h →
            resolveIPNSFromPrivateKeyTrace (DecodeResult.key kp) env
              = ({ success := true, ipfsHash := some h,
                   ipnsName := some (getIPNSNameFromKeypair (some kp)),
                   error := none },
                 [ipfsGatewayURL (getIPNSNameFromKeypair (some kp)),
                  cloudflareGatewayURL (getIPNSNameFromKeypair (some kp))]))) := by
  refine ⟨rfl, ?_, ?_, ?_⟩
  · intro hok
    simp [resolveIPNSFromPublicKeyTrace, resolutionMethods,
      runMethodsTrace, hok]
  · intro herr hok
    simp [resolveIPNSFromPublicKeyTrace, resolutionMethods,
      runMethodsTrace, herr, hok]
  · intro hty
    constructor
    · intro hok
      simp [resolveIPNSFromPrivateKeyTrace, hty, resolutionMethods,
        runMethodsTrace, hok]
    · intro herr hok
      simp [resolveIPNSFromPrivateKeyTrace, hty, resolutionMethods,
        runMethodsTrace, herr, hok]

def c1WitnessEnv : GatewayEnv :=
  { ipfsIoGateway := .fetchFail "network unreachable",
    cloudflareGateway :=
      .resp { ok := true, status := 200, xIpfsRoots := some "bafyC1" } }

def c1WitnessKey : PrivateKey :=
  { type := .Ed25519, publicKeyBytes := [1, 2, 3], privateKeyBytes := [9] }

/-- C1 witness: with the first gateway down and the second returning
bafyC1, both entry points succeed with bafyC1 after invoking both
strategies in order. -/
theorem claim_c1_fallback_order_witness :
    resolveIPNSFromPublicKeyTrace "kName" c1WitnessEnv
      = ({ success := true, ipfsHash := some "bafyC1",
           ipnsName := some "kName", error := none },
         [ipfsGatewayURL "kName", cloudflareGatewayURL "kName"]) := by
  have hmain := claim_c1_fallback_order "kName" c1WitnessKey c1WitnessEnv
    "bafyC1" "network unreachable"
  exact hmain.2.2.1 (by decide) (by decide)

/-- C2: when every strategy fails, each individual failure is absorbed
and both entry points return success false, no content hash, and the
non-empty aggregated error stating that all strategies failed. -/
theorem claim_c2_exhaustion (name : String) (kp : PrivateKey)
    (env : GatewayEnv) (e1 e2 : String)
    (h1 : probeIpfsGateway env = Except.error e1)
    (h2 : probeCloudflareGateway env = Except.error e2) :
    (resolveIPNSFromPublicKeyTrace name env
      = ({ success := false, ipfsHash := none, ipnsName := some name,
           error := some "All resolution methods failed" },
         [ipfsGatewayURL name, cloudflareGatewayURL name]))
    ∧ "All resolution methods failed" ≠ ""
    ∧ (kp.type = KeyType.Ed25519 →
        resolveIPNSFromPrivateKeyTrace (DecodeResult.key kp) env
          = ({ success := false, ipfsHash := none,
               ipnsName := some (getIPNSNameFromKeypair (some kp)),
               error := some "All resolution methods failed" },
             [ipfsGatewayURL (getIPNSNameFromKeypair (some kp)),
              cloudflareGatewayURL (getIPNSNameFromKeypair (some kp))])) := by
  refine ⟨?_, by decide, ?_⟩
  · simp [resolveIPNSFromPublicKeyTrace, resolutionMethods,
      runMethodsTrace, h1, h2]
  · intro hty
    simp [resolveIPNSFromPrivateKeyTrace, hty, resolutionMethods,
      runMethodsTrace, h1, h2]

def c2WitnessEnv : GatewayEnv :=
  { ipfsIoGateway := .resp { ok := false, status := 500, xIpfsRoots := none },
    cloudflareGateway := .fetchFail "timeout" }

def c2WitnessKey : PrivateKey :=
  { type := .Ed25519, publicKeyBytes := [4, 5], privateKeyBytes := [1] }

/-- C2 witness: with a 500 from the first gateway and a thrown fetch on
the second, resolution returns the aggregated failure with no hash. -/
theorem claim_c2_exhaustion_witness :
    resolveIPNSFromPublicKeyTrace "kN" c2WitnessEnv
      = ({ success := false, ipfsHash := none, ipnsName := some "kN",
           error := some "All resolution methods failed" },
         [ipfsGatewayURL "kN", cloudflareGatewayURL "kN"]) := by
  have hmain := claim_c2_exhaustion "kN" c2WitnessKey c2WitnessEnv
    "Gateway header resolution failed: 500" "timeout" (by decide) (by decide)
  exact hmain.1

/-- C5: a decoded key whose algorithm is not Ed25519 makes both
resolveIPNSFromPrivateKey and updateIPNSRecord fail with the
unsupported-key-type error as a result value; no gateway probe is run,
no identity derived, no record signed, and no routing put issued. -/
theorem claim_c5_unsupported_key_type (kp : PrivateKey)
    (genv : GatewayEnv) (h : String) (penv : PublishEnv)
    (hty : kp.type ≠ KeyType.Ed25519) :
    (resolveIPNSFromPrivateKeyTrace (DecodeResult.key kp) genv
      = ({ success := false, ipfsHash := none, ipnsName := none,
           error := some "Only libp2p Ed25519 keys are supported" }, []))
    ∧ (penv.decodedKey = DecodeResult.key kp →
        (updateIPNSRecordTrace h penv).1.success = false
        ∧ (updateIPNSRecordTrace h penv).2.identityDerived = false
        ∧ (updateIPNSRecordTrace h penv).2.signInvoked = false
        ∧ (updateIPNSRecordTrace h penv).2.putInvoked = false
        ∧ (penv.heliaCreate = Except.ok () →
            (updateIPNSRecordTrace h penv).1.error
              = some "Only libp2p Ed25519 keys are supported")) := by
  constructor
  · simp [resolveIPNSFromPrivateKeyTrace, hty]
  · intro hdk
    rcases hHel : penv.heliaCreate with m | u
    · simp [updateIPNSRecordTrace, hHel, failedUpdate]
    · simp [updateIPNSRecordTrace, hHel, updateIPNSBody, hdk, hty,
        failedUpdate, publishBaseTrace]

def c5WitnessKey : PrivateKey :=
  { type := .RSA, publicKeyBytes := [1, 2], privateKeyBytes := [3] }

def c5WitnessGatewayEnv : GatewayEnv :=
  { ipfsIoGateway := .fetchFail "x", cloudflareGateway := .fetchFail "y" }

def c5WitnessPublishEnv : PublishEnv :=
  { heliaCreate := .ok (), decodedKey := .key c5WitnessKey,
    cidParse := .ok (), now := 1700000000000,
    signOutcome := .ok (), putOutcome := .ok (), stopOutcome := .ok () }

/-- C5 witness: an RSA key is rejected by both entry points with the
unsupported-key-type message, no probe, no signing, no put. -/
theorem claim_c5_unsupported_key_type_witness :
    (resolveIPNSFromPrivateKeyTrace (DecodeResult.key c5WitnessKey)
        c5WitnessGatewayEnv
      = ({ success := false, ipfsHash := none, ipnsName := none,
           error := some "Only libp2p Ed25519 keys are supported" }, []))
    ∧ (updateIPNSRecordTrace "bafyX" c5WitnessPublishEnv).2.putInvoked
        = false := by
  have hmain := claim_c5_unsupported_key_type c5WitnessKey
    c5WitnessGatewayEnv "bafyX" c5WitnessPublishEnv (by decide)
  exact ⟨hmain.1, (hmain.2 rfl).2.2.2.1⟩

/-- C6: identity derivation is a pure function, and on the Ed25519 keys
the callers pass it, identical public key bytes yield the identical
identity string regardless of the private key bytes. -/
theorem claim_c6_identity_deterministic (k1 k2 : PrivateKey)
    (h1 : k1.type = KeyType.Ed25519) (h2 : k2.type = KeyType.Ed25519)
    (hpub : k1.publicKeyBytes = k2.publicKeyBytes) :
    getIPNSNameFromKeypair (some k1) = getIPNSNameFromKeypair (some k2) := by
  simp [getIPNSNameFromKeypair, h1, h2, hpub]

def c6WitnessKeyA : PrivateKey :=
  { type := .Ed25519, publicKeyBytes := [10, 20, 30], privateKeyBytes := [7] }

def c6WitnessKeyB : PrivateKey :=
  { type := .Ed25519, publicKeyBytes := [10, 20, 30], privateKeyBytes := [8] }

/-- C6 witness: two Ed25519 keys with the same public bytes but
different private bytes derive the identical identity string. -/
theorem claim_c6_identity_deterministic_witness :
    getIPNSNameFromKeypair (some c6WitnessKeyA)
      = getIPNSNameFromKeypair (some c6WitnessKeyB) :=
  claim_c6_identity_deterministic c6WitnessKeyA c6WitnessKeyB rfl rfl rfl

/-- C7: for a valid Ed25519 key, resolving through the private key
entry point is exactly resolving through the public entry point at
the derived identity: identical strategy chain, identical order,
identical result and trace. -/
theorem claim_c7_entry_point_equivalence (kp : PrivateKey)
    (env : GatewayEnv) (hty : kp.type = KeyType.Ed25519) :
    resolveIPNSFromPrivateKeyTrace (DecodeResult.key kp) env
      = resolveIPNSFromPublicKeyTrace (getIPNSNameFromKeypair (some kp))
          env := by
  simp [resolveIPNSFromPrivateKeyTrace, resolveIPNSFromPublicKeyTrace, hty]

def c7WitnessKey : PrivateKey :=
  { type := .Ed25519, publicKeyBytes := [11, 22], privateKeyBytes := [5] }

def c7WitnessResp : FetchResponse :=
  { ok := true, status := 200, xIpfsRoots := some "bafyC7" }

def c7WitnessEnv : GatewayEnv :=
  { ipfsIoGateway := .resp c7WitnessResp,
    cloudflareGateway := .fetchFail "down" }

/-- C7 witness: at a concrete Ed25519 key and gateway environment the
two entry points produce the same result and trace. -/
theorem claim_c7_entry_point_equivalence_witness :
    resolveIPNSFromPrivateKeyTrace (DecodeResult.key c7WitnessKey)
        c7WitnessEnv
      = resolveIPNSFromPublicKeyTrace
          (getIPNSNameFromKeypair (some c7WitnessKey)) c7WitnessEnv :=
  claim_c7_entry_point_equivalence c7WitnessKey c7WitnessEnv rfl

/-- C3: a contentHash that fails CID parsing makes the publish call
fail with the parse error before any record is signed and without the
routing put ever being invoked; in general the put step runs only
after a successful signing step. -/
theorem claim_c3_invalid_content_hash (h : String) (env : PublishEnv)
    (kp : PrivateKey) (m : String) :
    (env.heliaCreate = Except.ok () → env.decodedKey = DecodeResult.key kp →
      kp.type = KeyType.Ed25519 → env.cidParse = Except.error m →
      (updateIPNSRecordTrace h env).1.success = false
      ∧ (updateIPNSRecordTrace h env).1.error = some m
      ∧ (updateIPNSRecordTrace h env).2.signInvoked = false
      ∧ (updateIPNSRecordTrace h env).2.putInvoked = false)
    ∧ ((updateIPNSRecordTrace h env).2.putInvoked = true →
        env.signOutcome.isOk = true
        ∧ (updateIPNSRecordTrace h env).2.signInvoked = true) := by
  constructor
  · intro hHel hdk hty hcid
    simp [updateIPNSRecordTrace, hHel, updateIPNSBody, hdk, hty, hcid,
      failedUpdate, publishBaseTrace]
  · intro hput
    rcases hHel : env.heliaCreate with mh | u
    · simp [updateIPNSRecordTrace, hHel] at hput
    · rcases hdk : env.decodedKey with md | kp2
      · simp [updateIPNSRecordTrace, hHel, updateIPNSBody, hdk,
          publishBaseTrace] at hput
      · by_cases hty2 : kp2.type = KeyType.Ed25519
        · rcases hcid : env.cidParse with mc | uc
          · simp [updateIPNSRecordTrace, hHel, updateIPNSBody, hdk, hty2,
              hcid, publishBaseTrace] at hput
          · rcases hsig : env.signOutcome with ms | us
            · simp [updateIPNSRecordTrace, hHel, updateIPNSBody, hdk, hty2,
                hcid, hsig, publishBaseTrace] at hput
            · constructor
              · simp [hsig, Except.isOk, Except.toBool]
              · rcases hputo : env.putOutcome with mp | up <;>
                  simp [updateIPNSRecordTrace, hHel, updateIPNSBody, hdk,
                    hty2, hcid, hsig, hputo, publishBaseTrace]
        · simp [updateIPNSRecordTrace, hHel, updateIPNSBody, hdk, hty2,
            publishBaseTrace] at hput

def c3WitnessKey : PrivateKey :=
  { type := .Ed25519, publicKeyBytes := [1], privateKeyBytes := [2] }

def c3WitnessEnv : PublishEnv :=
  { heliaCreate := .ok (), decodedKey := .key c3WitnessKey,
    cidParse := .error "Invalid CID version", now := 1700000000000,
    signOutcome := .ok (), putOutcome := .ok (), stopOutcome := .ok () }

/-- C3 witness: a malformed hash makes the concrete publish call fail
with the parse error, with no signing and no routing put. -/
theorem claim_c3_invalid_content_hash_witness :
    (updateIPNSRecordTrace "not-a-cid" c3WitnessEnv).1.error
      = some "Invalid CID version"
    ∧ (updateIPNSRecordTrace "not-a-cid" c3WitnessEnv).2.putInvoked
      = false := by
  have hmain := claim_c3_invalid_content_hash "not-a-cid" c3WitnessEnv
    c3WitnessKey "Invalid CID version"
  have hcase := hmain.1 rfl rfl rfl rfl
  exact ⟨hcase.2.1, hcase.2.2.2⟩

def c4Key : PrivateKey :=
  { type := .Ed25519, publicKeyBytes := [3, 1, 4], privateKeyBytes := [1] }

/-- Environment of a first publish call whose Date.now() reads
1700000000000 and in which every external step succeeds. -/
def c4EnvFirst : PublishEnv :=
  { heliaCreate := .ok (), decodedKey := .key c4Key, cidParse := .ok (),
    now := 1700000000000, signOutcome := .ok (), putOutcome := .ok (),
    stopOutcome := .ok () }

/-- Environment of a second publish call in the same clock millisecond:
Date.now() reads the same 1700000000000. -/
def c4EnvSecond : PublishEnv :=
  { heliaCreate := .ok (), decodedKey := .key c4Key, cidParse := .ok (),
    now := 1700000000000, signOutcome := .ok (), putOutcome := .ok (),
    stopOutcome := .ok () }

/-- C4 counterexample: two sequential publish calls under the same key
whose clock reads the same millisecond both use sequence number
1700000000000, and the second call succeeds with no error — the engine
publishes a sequence number less than or equal to the previous one
silently instead of rejecting it with NonMonotonicSequence. -/
theorem claim_c4_counterexample :
    (updateIPNSRecordTrace "bafyalpha" c4EnvFirst).2.seqUsed
      = some 1700000000000
    ∧ (updateIPNSRecordTrace "bafyalpha" c4EnvSecond).2.seqUsed
      = some 1700000000000
    ∧ (updateIPNSRecordTrace "bafyalpha" c4EnvSecond).1.success = true
    ∧ (updateIPNSRecordTrace "bafyalpha" c4EnvSecond).1.error = none := by
  refine ⟨rfl, rfl, ?_, ?_⟩ <;> rfl

/-- C4 amended: the engine performs no comparison against a prior
sequence number; each publish call uses its own Date.now() reading as
the sequence number and succeeds regardless of the previous value.
Monotonicity holds exactly when the clock strictly advances: if the
clock reading of the second call is strictly greater, so is its
sequence number. -/
theorem claim_c4_sequence_policy (h1 h2 : String) (e1 e2 : PublishEnv)
    (kp1 kp2 : PrivateKey)
    (hc1 : e1.heliaCreate = Except.ok ())
    (hk1 : e1.decodedKey = DecodeResult.key kp1)
    (ht1 : kp1.type = KeyType.Ed25519)
    (hp1 : e1.cidParse = Except.ok ())
    (hs1 : e1.signOutcome = Except.ok ())
    (hq1 : e1.putOutcome = Except.ok ())
    (hc2 : e2.heliaCreate = Except.ok ())
    (hk2 : e2.decodedKey = DecodeResult.key kp2)
    (ht2 : kp2.type = KeyType.Ed25519)
    (hp2 : e2.cidParse = Except.ok ())
    (hs2 : e2.signOutcome = Except.ok ())
    (hq2 : e2.putOutcome = Except.ok ()) :
    (updateIPNSRecordTrace h1 e1).2.seqUsed = some e1.now
    ∧ (updateIPNSRecordTrace h2 e2).2.seqUsed = some e2.now
    ∧ (updateIPNSRecordTrace h1 e1).1.success = true
    ∧ (updateIPNSRecordTrace h2 e2).1.success = true
    ∧ (e1.now < e2.now →
        ∃ a b, (updateIPNSRecordTrace h1 e1).2.seqUsed = some a
          ∧ (updateIPNSRecordTrace h2 e2).2.seqUsed = some b ∧ a < b) := by
  refine ⟨?_, ?_, ?_, ?_, ?_⟩
  · simp [updateIPNSRecordTrace, hc1, updateIPNSBody, hk1, ht1, hp1,
      hs1, hq1, publishBaseTrace]
  · simp [updateIPNSRecordTrace, hc2, updateIPNSBody, hk2, ht2, hp2,
      hs2, hq2, publishBaseTrace]
  · simp [updateIPNSRecordTrace, hc1, updateIPNSBody, hk1, ht1, hp1,
      hs1, hq1]
  · simp [updateIPNSRecordTrace, hc2, updateIPNSBody, hk2, ht2, hp2,
      hs2, hq2]
  · intro hlt
    refine ⟨e1.now, e2.now, ?_, ?_, hlt⟩
    · simp [updateIPNSRecordTrace, hc1, updateIPNSBody, hk1, ht1, hp1,
        hs1, hq1, publishBaseTrace]
    · simp [updateIPNSRecordTrace, hc2, updateIPNSBody, hk2, ht2, hp2,
        hs2, hq2, publishBaseTrace]

def c4EnvLater : PublishEnv :=
  { heliaCreate := .ok (), decodedKey := .key c4Key, cidParse := .ok (),
    now := 1700000000007, signOutcome := .ok (), putOutcome := .ok (),
    stopOutcome := .ok () }

/-- C4 amended witness: a first call at clock 1700000000000 and a
second at 1700000000007 both succeed, use their clock readings as
sequence numbers, and the sequence number of the later call is
strictly greater. -/
theorem claim_c4_sequence_policy_witness :
    (updateIPNSRecordTrace "bafyalpha" c4EnvFirst).2.seqUsed
      = some 1700000000000
    ∧ (updateIPNSRecordTrace "bafybeta" c4EnvLater).2.seqUsed
      = some 1700000000007
    ∧ (updateIPNSRecordTrace "bafyalpha" c4EnvFirst).1.success = true
    ∧ (updateIPNSRecordTrace "bafybeta" c4EnvLater).1.success = true
    ∧ (c4EnvFirst.now < c4EnvLater.now →
        ∃ a b, (updateIPNSRecordTrace "bafyalpha" c4EnvFirst).2.seqUsed
            = some a
          ∧ (updateIPNSRecordTrace "bafybeta" c4EnvLater).2.seqUsed
            = some b ∧ a < b) :=
  claim_c4_sequence_policy "bafyalpha" "bafybeta" c4EnvFirst c4EnvLater
    c4Key c4Key rfl rfl rfl rfl rfl rfl rfl rfl rfl rfl rfl rfl

/-- C8: on every exit path of a publish call, the transient Helia
session is stopped exactly when it was created: the trace records a
stop if and only if it records a creation, for every environment
(creation failure, key failure, parse failure, signing failure,
routing failure, or success). -/
theorem claim_c8_session_release (h : String) (env : PublishEnv) :
    (updateIPNSRecordTrace h env).2.heliaStopped
      = (updateIPNSRecordTrace h env).2.heliaCreated := by
  rcases hHel : env.heliaCreate with mh | u
  · simp [updateIPNSRecordTrace, hHel]
  · rcases hdk : env.decodedKey with md | kp
    · simp [updateIPNSRecordTrace, hHel, updateIPNSBody, hdk,
        publishBaseTrace]
    · by_cases hty : kp.type = KeyType.Ed25519
      · rcases hcid : env.cidParse with mc | uc
        · simp [updateIPNSRecordTrace, hHel, updateIPNSBody, hdk, hty,
            hcid, publishBaseTrace]
        · rcases hsig : env.signOutcome with ms | us
          · simp [updateIPNSRecordTrace, hHel, updateIPNSBody, hdk, hty,
              hcid, hsig, publishBaseTrace]
          · rcases hputo : env.putOutcome with mp | up <;>
              simp [updateIPNSRecordTrace, hHel, updateIPNSBody, hdk, hty,
                hcid, hsig, hputo, publishBaseTrace]
      · simp [updateIPNSRecordTrace, hHel, updateIPNSBody, hdk, hty,
          publishBaseTrace]

/-- Characterization of string truthiness. -/
lemma strTruthy_eq_true_iff (o : Option String) :
    strTruthy o = true ↔ ∃ s, o = some s ∧ s ≠ "" := by
  cases o <;> simp [strTruthy]

/-- Characterization of a configured private key: present and
non-empty. -/
lemma getIPNSPrivateKeyFromConfig_isSome_iff (c : EnvironmentConfig) :
    (getIPNSPrivateKeyFromConfig c).isSome = true
      ↔ ∃ k, c.ipnsPrivateKey = some k ∧ k ≠ "" := by
  rcases hc : c.ipnsPrivateKey with _ | k
  · simp [getIPNSPrivateKeyFromConfig, hc]
  · by_cases hk : k = "" <;> simp [getIPNSPrivateKeyFromConfig, hc, hk]

/-- C9: the IPNS record update inside uploadAndUpdateIPNS is invoked
exactly when the IPFS upload succeeded with a (non-empty) content hash
and the environment config carries a non-empty ipnsPrivateKey; in
every other case the returned value is the bare upload result with no
ipnsResult. -/
theorem claim_c9_update_invocation (u : UploadResult)
    (c : EnvironmentConfig) (upd : IPNSUpdateResult) :
    ((uploadAndUpdateIPNSTrace u c upd).2 = true
      ↔ (u.success = true ∧ (∃ hsh, u.ipfsHash = some hsh ∧ hsh ≠ "")
          ∧ (∃ k, c.ipnsPrivateKey = some k ∧ k ≠ "")))
    ∧ ((uploadAndUpdateIPNSTrace u c upd).2 = false →
        uploadAndUpdateIPNS u c upd = (u, none)) := by
  by_cases hcond : (u.success = true ∧ strTruthy u.ipfsHash = true)
  · rcases hg : getIPNSPrivateKeyFromConfig c with _ | k
    · constructor
      · simp only [uploadAndUpdateIPNSTrace, hcond.1, hcond.2, hg]
        have hnok : ¬∃ k, c.ipnsPrivateKey = some k ∧ k ≠ "" := by
          rw [← getIPNSPrivateKeyFromConfig_isSome_iff, hg]
          simp
        simp [hnok]
      · intro hf
        simp [uploadAndUpdateIPNS, uploadAndUpdateIPNSTrace, hcond.1,
          hcond.2, hg]
    · constructor
      · simp only [uploadAndUpdateIPNSTrace, hcond.1, hcond.2, hg]
        have hok : ∃ k, c.ipnsPrivateKey = some k ∧ k ≠ "" := by
          rw [← getIPNSPrivateKeyFromConfig_isSome_iff, hg]
          simp
        have hhsh := (strTruthy_eq_true_iff u.ipfsHash).1 hcond.2
        simp [hok, hcond.1, hhsh]
      · intro hf
        simp [uploadAndUpdateIPNSTrace, hcond.1, hcond.2, hg] at hf
  · constructor
    · constructor
      · intro ht
        simp only [uploadAndUpdateIPNSTrace] at ht
        rw [if_neg] at ht
        · exact absurd ht (by simp)
        · intro hc2
          exact hcond ⟨by simpa using hc2.1, by simpa using hc2.2⟩
      · intro ⟨hsu, hhsh, hk⟩
        exact absurd ⟨hsu, (strTruthy_eq_true_iff u.ipfsHash).2 hhsh⟩ hcond
    · intro hf
      simp only [uploadAndUpdateIPNS, uploadAndUpdateIPNSTrace]
      rw [if_neg]
      intro hc2
      exact hcond ⟨by simpa using hc2.1, by simpa using hc2.2⟩

/-- C10: with a usable API key, an existing pinned object named
env-<environment>.json is deleted before the new content is uploaded
(the event trace is delete then put); a failed deletion aborts with
success false and the upload is never issued; a truthy lookup error is
ignored and the upload proceeds without a delete. -/
theorem claim_c10_replace_pinned_object (environmentName : String)
    (apiKey : Option String) (env : UploaderEnv)
    (hkey : strTruthy apiKey = true) :
    ((findPinnedObjectByName ("env-" ++ environmentName ++ ".json")
        env.allPinned).1.isSome = true →
      env.deleteOutcome.1 = true →
      (uploadConfigToIPFS environmentName apiKey env).2
        = [UploadEvent.deleteExisting, UploadEvent.putObject])
    ∧ ((findPinnedObjectByName ("env-" ++ environmentName ++ ".json")
        env.allPinned).1.isSome = true →
      env.deleteOutcome.1 = false →
      (uploadConfigToIPFS environmentName apiKey env).1.success = false
      ∧ (uploadConfigToIPFS environmentName apiKey env).2
        = [UploadEvent.deleteExisting])
    ∧ ((findPinnedObjectByName ("env-" ++ environmentName ++ ".json")
        env.allPinned).1 = none →
      (uploadConfigToIPFS environmentName apiKey env).2
        = [UploadEvent.putObject])
    ∧ (strTruthy env.allPinned.2 = true →
      (uploadConfigToIPFS environmentName apiKey env).2
        = [UploadEvent.putObject]) := by
  refine ⟨?_, ?_, ?_, ?_⟩
  · intro hfound hdel
    rcases hf : (findPinnedObjectByName ("env-" ++ environmentName
        ++ ".json") env.allPinned).1 with _ | obj
    · rw [hf] at hfound
      simp at hfound
    · simp [uploadConfigToIPFS, hkey, hf, hdel]
  · intro hfound hdel
    rcases hf : (findPinnedObjectByName ("env-" ++ environmentName
        ++ ".json") env.allPinned).1 with _ | obj
    · rw [hf] at hfound
      simp at hfound
    · simp [uploadConfigToIPFS, hkey, hf, hdel]
  · intro hf
    simp [uploadConfigToIPFS, hkey, hf]
  · intro herr
    have hf : (findPinnedObjectByName ("env-" ++ environmentName
        ++ ".json") env.allPinned).1 = none := by
      simp [findPinnedObjectByName, herr]
    simp [uploadConfigToIPFS, hkey, hf]

def c10UploadResp : UploadHttpOutcome :=
  { ok := true, status := 200, errorText := "",
    extractedCid := some "bafyNew", raw := "resp" }

def c10EnvWithExisting : UploaderEnv :=
  { allPinned := ([{ name := "env-production.json", requestId := "r1" }],
      none),
    deleteOutcome := (true, none),
    uploadHttp := .ok c10UploadResp }

def c10EnvDeleteFails : UploaderEnv :=
  { allPinned := ([{ name := "env-production.json", requestId := "r1" }],
      none),
    deleteOutcome := (false, some "pin not removable"),
    uploadHttp := .ok c10UploadResp }

/-- C10 witness: with env-production.json already pinned, a successful
delete yields the delete-then-put trace; a failing delete yields a
failed result whose trace stops at the delete. -/
theorem claim_c10_replace_pinned_object_witness :
    (uploadConfigToIPFS "production" (some "qk") c10EnvWithExisting).2
      = [UploadEvent.deleteExisting, UploadEvent.putObject]
    ∧ (uploadConfigToIPFS "production" (some "qk") c10EnvDeleteFails).1.success
      = false
    ∧ (uploadConfigToIPFS "production" (some "qk") c10EnvDeleteFails).2
      = [UploadEvent.deleteExisting] := by
  have h1 := claim_c10_replace_pinned_object "production" (some "qk")
    c10EnvWithExisting (by decide)
  have h2 := claim_c10_replace_pinned_object "production" (some "qk")
    c10EnvDeleteFails (by decide)
  refine ⟨h1.1 (by decide) rfl, ?_, ?_⟩
  · exact (h2.2.1 (by decide) rfl).1
  · exact (h2.2.1 (by decide) rfl).2
